import Mathlib

/-!
Verification development for the traffic simulator in traffic_gym.py.

The Python source is embedded shallowly:

* Float arithmetic is modelled by exact real arithmetic (the square root in
  the direction normalisation forces the real field; no claim here depends on
  floating-point rounding).  Python int(...) truncation toward zero is the
  function int_ below, and Python round is modelled by Mathlib round
  (round-half-up; Python uses banker's rounding, which differs only at exact
  halves, never reached by any statement below).
* The global random stream (random.random, random.gauss, random.choice,
  random.randrange) is threaded explicitly as an Oracle together with a draw
  counter; each call site consumes the draws in the order the source makes
  them.
* Cars are mutable Python objects aliased by the vehicle list and the per-lane
  occupancy lists; we model the heap by a store (cars : List Car) indexed by
  car ids, and the lists self.vehicles / self.lane_occupancy hold ids.
  Comparisons Python performs by object identity (in, remove) become id
  comparisons.
* CPython set.pop and set iteration on a freshly built set of small
  non-negative ints returns elements in ascending order (small ints hash to
  themselves); lane sets are therefore modelled as ascending lists of lane
  indices, set.pop as head (setPop; the source never pops an empty set, the
  total model returns 0 there), and set difference as an order preserving
  filter.
* The Python for-loop over self.vehicles, which mutates the list it iterates
  (remove of the current element), is modelled with the iterator's actual
  index semantics: the loop index advances by one after each body run even
  when the current element was removed (phase1Loop below).
* bisect.bisect / bisect.insort are modelled as the genuine binary search of
  CPython's bisect module (bisectLoop), not as a linear scan, since the two
  differ on lists that are not sorted for the comparison used.
-/

set_option maxHeartbeats 3200000

open scoped Classical

noncomputable section

/-- Conversion constant: LANE_W = 20 pixels per lane. -/
def LANE_W : ℝ := 20

/-- SCALE = LANE_W / 3.7, pixels per metre. -/
def SCALE : ℝ := LANE_W / 3.7

/-- The colours dictionary of the source, restricted to the keys the
simulation core uses (c cyan, y yellow, m magenta, r red, g green, k black,
w white, b blue). -/
inductive Colour
  | c | y | m | r | g | k | w | b
  deriving DecidableEq

/-- Python int(...) on a float: truncation toward zero. -/
def int_ (x : ℝ) : ℤ := if 0 ≤ x then ⌊x⌋ else ⌈x⌉

/-- The mutable state of a Car object: position (x, y), direction, speeds,
timing interval, colour, behavioural flags and the lateral target
(Car.__init__ fields). -/
structure Car where
  length : ℤ
  width : ℤ
  dirx : ℝ
  diry : ℝ
  x : ℝ
  y : ℝ
  target_speed : ℝ
  speed : ℝ
  dt : ℝ
  colour : Colour
  braked : Bool
  passing : Bool
  target_lane : ℝ

instance : Inhabited Car :=
  ⟨⟨0, 0, 0, 0, 0, 0, 0, 0, 0, Colour.c, false, false, 0⟩⟩

/-- Car.front: int(self.position[0] + self.length). -/
def Car.front (c : Car) : ℤ := int_ (c.x + (c.length : ℝ))

/-- Car.back: int(self.position[0]). -/
def Car.back (c : Car) : ℤ := int_ c.x

/-- Car.step: proportional lateral error, quantised by 0.01 * round(...);
when the error is exactly zero the passing flag is cleared and the colour
reset; the direction is the normalised (1, error) and the position advances
by speed * direction * dt. -/
def Car.step (c : Car) : Car :=
  let error : ℝ := 0.01 * ((round (c.target_lane - c.y) : ℤ) : ℝ)
  let c1 := if error = 0 then { c with passing := false, colour := Colour.c } else c
  let nrm : ℝ := Real.sqrt (1 + error ^ 2)
  { c1 with
    dirx := 1 / nrm
    diry := error / nrm
    x := c1.x + c1.speed * (1 / nrm) * c1.dt
    y := c1.y + c1.speed * (error / nrm) * c1.dt }

/-- Car.safe_distance: speed times a factor drawn from random.gauss(1, .03);
the draw is passed in explicitly. -/
def Car.safe_distance (c : Car) (factor : ℝ) : ℝ := c.speed * factor

/-- Car.brake(fraction): no-op while passing, otherwise applies the
deceleration -fraction * g * mu * SCALE over one dt, turns yellow and sets
the braked flag.  g = 9.81, mu = 0.9. -/
def Car.brake (c : Car) (fraction : ℝ) : Car :=
  if c.passing = true then c
  else
    { c with
      speed := c.speed + (-fraction * 9.81 * 0.9 * SCALE) * c.dt
      colour := Colour.y
      braked := true }

/-- Car.pass_: no-op while passing, otherwise retargets one lane width to the
left, sets passing, turns magenta and clears braked. -/
def Car.pass_ (c : Car) : Car :=
  if c.passing = true then c
  else
    { c with
      target_lane := c.y - LANE_W
      passing := true
      colour := Colour.m
      braked := false }

/-- Car.__lt__: self.front < other.back (the comparison bisect uses). -/
def carLt (a b : Car) : Prop := a.front < b.back

/-- Car.__gt__: self.back > other.front. -/
def carGt (a b : Car) : Prop := b.front < a.back

/-- Car.__sub__: self.back - other.front. -/
def Car.sub (a b : Car) : ℤ := a.back - b.front

/-- A lane band with min / mid / max lateral coordinates
(StatefulEnv.build_lanes entries). -/
structure Lane where
  min : ℝ
  mid : ℝ
  max : ℝ

instance : Inhabited Lane := ⟨⟨0, 0, 0⟩⟩

/-- Order preserving filter with a propositional predicate (used to model
iteration over Python sets of small ints in ascending order). -/
def filterP (p : α → Prop) : List α → List α
  | [] => []
  | a :: t => if p a then a :: filterP p t else filterP p t

/-- Car.get_lane_set: the set of lane indices whose band contains the near or
the far lateral edge of the car, as an ascending list. -/
def Car.get_lane_set (c : Car) (lanes : List Lane) : List ℕ :=
  filterP
    (fun l =>
      ((lanes.getD l default).min ≤ c.y ∧ c.y ≤ (lanes.getD l default).max) ∨
      ((lanes.getD l default).min ≤ c.y + (c.width : ℝ) ∧
        c.y + (c.width : ℝ) ≤ (lanes.getD l default).max))
    (List.range lanes.length)

/-- CPython set.pop on a freshly built set of small non-negative ints: the
least element (head of the ascending list).  The source never pops an empty
lane set; the total model returns 0 there. -/
def setPop (l : List ℕ) : ℕ := l.headD 0

/-- StatefulEnv.build_lanes. -/
def build_lanes (offset : ℝ) (nb_lanes : ℕ) : List Lane :=
  (List.range nb_lanes).map fun n =>
    { min := offset + (n : ℝ) * LANE_W
      mid := offset + LANE_W / 2 + (n : ℝ) * LANE_W
      max := offset + ((n : ℝ) + 1) * LANE_W }

/-- The explicit random stream: real draws (random.random, random.gauss) and
integer draws (random.choice index, random.randrange), indexed by a single
draw counter. -/
structure Oracle where
  real : ℕ → ℝ
  nat : ℕ → ℕ

/-- The world state of StatefulEnv: configuration, tick counter, lane
geometry, the car store, the live-vehicle list (ids), the per-lane occupancy
rosters (ids) and the pending-collision flag (None / a car). -/
structure StatefulEnv where
  nb_lanes : ℕ
  delta_t : ℝ
  traffic_rate : ℝ
  screen_w : ℝ
  frame : ℕ
  lanes : List Lane
  cars : List Car
  vehicles : List ℕ
  lane_occupancy : List (List ℕ)
  collision : Option ℕ

/-- Dereference a car id in the store. -/
def carAt (s : StatefulEnv) (vid : ℕ) : Car := s.cars.getD vid default

/-- In-place mutation of the car object with id vid. -/
def updateCar (s : StatefulEnv) (vid : ℕ) (f : Car → Car) : StatefulEnv :=
  { s with cars := s.cars.set vid (f (s.cars.getD vid default)) }

/-- The occupancy roster of lane l. -/
def rosterOf (s : StatefulEnv) (l : ℕ) : List ℕ := s.lane_occupancy.getD l []

/-- The binary-search loop of bisect.bisect_right: narrows [lo, hi) testing
the predicate at the midpoint; fuel-based recursion (the length of the list
is always enough fuel). -/
def bisectLoop (p : ℕ → Prop) : ℕ → ℕ → ℕ → ℕ
  | 0, lo, _ => lo
  | fuel + 1, lo, hi =>
    if lo < hi then
      if p ((lo + hi) / 2) then bisectLoop p fuel lo ((lo + hi) / 2)
      else bisectLoop p fuel ((lo + hi) / 2 + 1) hi
    else lo

/-- bisect.bisect(l, x) = bisect.bisect_right: binary search over the whole
list with the comparison x < l[mid] (here p applied to l[mid]). -/
def bisect_right (p : β → Prop) (l : List β) [Inhabited β] : ℕ :=
  bisectLoop (fun i => p (l.getD i default)) l.length 0 l.length

/-- bisect.insort(l, x): insert x at the bisect_right position. -/
def insort_right (p : β → Prop) (x : β) (l : List β) [Inhabited β] : List β :=
  l.take (bisect_right p l) ++ x :: l.drop (bisect_right p l)

/-- bisect.insort(self.lane_occupancy[l], v) over car ids, with Car.__lt__ as
the comparison. -/
def insortRoster (s : StatefulEnv) (vid : ℕ) (roster : List ℕ) : List ℕ :=
  insort_right (fun w => carLt (carAt s vid) (carAt s w)) vid roster

/-- The enter/leave reconciliation loop of StatefulEnv.step lines 220-226:
for every lane index, insort v where it newly occupies, remove v where it no
longer does. -/
def reconcileLanes (s : StatefulEnv) (vid : ℕ) (occ : List ℕ) : StatefulEnv :=
  { s with
    lane_occupancy :=
      (List.range s.nb_lanes).foldl
        (fun lo l =>
          let roster := lo.getD l []
          if l ∈ occ ∧ vid ∉ roster then lo.set l (insortRoster s vid roster)
          else if l ∉ occ ∧ vid ∈ roster then lo.set l (roster.erase vid)
          else lo)
        s.lane_occupancy }

/-- Culling a vehicle past the far boundary (StatefulEnv.step lines 228-230):
remove it from the vehicle list and from every lane of its current lane
set. -/
def cull (s : StatefulEnv) (vid : ℕ) (occ : List ℕ) : StatefulEnv :=
  { s with
    vehicles := s.vehicles.erase vid
    lane_occupancy :=
      occ.foldl (fun lo l => lo.set l ((lo.getD l []).erase vid)) s.lane_occupancy }

/-- One body run of the per-vehicle loop of StatefulEnv.step (lines 216-233):
advance the car, recompute its lane set, reconcile the rosters, cull past the
far boundary, and subtract its lanes from the free set when it is within its
safe distance of the near boundary (one gauss draw). -/
def processVehicle (s : StatefulEnv) (free : List ℕ) (o : Oracle) (k vid : ℕ) :
    StatefulEnv × List ℕ × ℕ :=
  let s1 := updateCar s vid Car.step
  let c := carAt s1 vid
  let occ := c.get_lane_set s1.lanes
  let s2 := reconcileLanes s1 vid occ
  let s3 := if s2.screen_w < c.x then cull s2 vid occ else s2
  let free1 :=
    if c.x < c.safe_distance (o.real k) then filterP (fun l => l ∉ occ) free else free
  (s3, free1, k + 1)

/-- The per-vehicle loop with the CPython iterator semantics: the internal
index j advances by one after every body run, even when the body removed the
current element from self.vehicles (so the element shifted into slot j is
skipped).  Fuel-based; the initial list length is always enough fuel. -/
def phase1Loop (o : Oracle) : ℕ → StatefulEnv → List ℕ → ℕ → ℕ → StatefulEnv × List ℕ × ℕ
  | 0, s, free, _, k => (s, free, k)
  | fuel + 1, s, free, j, k =>
    if j < s.vehicles.length then
      match processVehicle s free o k (s.vehicles.getD j 0) with
      | (s1, free1, k1) => phase1Loop o fuel s1 free1 (j + 1) k1
    else (s, free, k)

/-- Car.__init__: a sedan on the chosen lane; length = round(4.8 * SCALE),
width = round(1.8 * SCALE), x = -length, y = lane mid - width // 2, speed =
(randrange(115, 130) - 10 * lane) * 1000 / 3600 * SCALE with the randrange
draw modelled as 115 + m % 15. -/
def mkCar (lanes : List Lane) (lane : ℕ) (m : ℕ) (dt : ℝ) : Car :=
  let length : ℤ := round ((4.8 : ℝ) * SCALE)
  let width : ℤ := round ((1.8 : ℝ) * SCALE)
  let y : ℝ := (lanes.getD lane default).mid - ((width / 2 : ℤ) : ℝ)
  let target_speed : ℝ :=
    (((115 + m % 15 : ℕ) : ℝ) - 10 * (lane : ℝ)) * 1000 / 3600 * SCALE
  { length := length
    width := width
    dirx := 1
    diry := 0
    x := -(length : ℝ)
    y := y
    target_speed := target_speed
    speed := target_speed
    dt := dt
    colour := Colour.c
    braked := false
    passing := false
    target_lane := y }

/-- lane_occupancy[l].insert(0, car) for every lane of the spawned car. -/
def prependToLanes (lo : List (List ℕ)) (laneSet : List ℕ) (cid : ℕ) :
    List (List ℕ) :=
  laneSet.foldl (fun acc l => acc.set l (cid :: acc.getD l [])) lo

/-- The spawn step of StatefulEnv.step (lines 235-242): draw
random.random(); when it is below traffic_rate * sin(2 pi frame dt) * dt and
the free set is non-empty, construct a Car on a random free lane
(random.choice draw at k+1, randrange draw at k+2), append it to the vehicle
list and prepend it to the roster of every lane it occupies. -/
def phase2 (s : StatefulEnv) (free : List ℕ) (o : Oracle) (k : ℕ) :
    StatefulEnv × ℕ :=
  if o.real k < s.traffic_rate * Real.sin (2 * Real.pi * (s.frame : ℝ) * s.delta_t) * s.delta_t then
    if free ≠ [] then
      let lane := free.getD (o.nat (k + 1) % free.length) 0
      let car := mkCar s.lanes lane (o.nat (k + 2)) s.delta_t
      let cid := s.cars.length
      ({ s with
          cars := s.cars ++ [car]
          vehicles := s.vehicles ++ [cid]
          lane_occupancy :=
            prependToLanes s.lane_occupancy (car.get_lane_set s.lanes) cid },
        k + 3)
    else (s, k + 1)
  else (s, k + 1)

/-- StatefulEnv._safe(v): the overtake feasibility check.  Fails when the car
cannot see far enough behind (one gauss draw), when its popped lane set gives
lane 0, or when the neighbours around its hypothetical slot in the next lane
up (bisect over that roster) are too close (one gauss draw per neighbour
examined).  The environment state is threaded through unchanged, as the
Python method reads but never writes self. -/
def StatefulEnv._safe (s : StatefulEnv) (v : Car) (o : Oracle) (k : ℕ) :
    Bool × StatefulEnv × ℕ :=
  if (v.back : ℝ) < v.safe_distance (o.real k) then (false, s, k + 1)
  else
    let current_lane := setPop (v.get_lane_set s.lanes)
    if current_lane = 0 then (false, s, k + 1)
    else
      let target_lane := rosterOf s (current_lane - 1)
      let me := bisect_right (fun w => carLt v (carAt s w)) target_lane
      let aheadCheck : ℕ → Bool × StatefulEnv × ℕ := fun k2 =>
        if me < target_lane.length then
          let ahead := carAt s (target_lane.getD me 0)
          if ((Car.sub ahead v : ℤ) : ℝ) < v.safe_distance (o.real k2) then (false, s, k2 + 1)
          else (true, s, k2 + 1)
        else (true, s, k2)
      if 0 < me then
        let behind := carAt s (target_lane.getD (me - 1) 0)
        if ((Car.sub v behind : ℤ) : ℝ) < behind.safe_distance (o.real (k + 1)) then
          (false, s, k + 2)
        else aheadCheck (k + 2)
      else aheadCheck (k + 1)

/-- distance = vehicle_list[i + 1] - vehicle_list[i] (Car.__sub__) for the
consecutive pair at index i of the roster of lane l. -/
def pairDist (s : StatefulEnv) (l i : ℕ) : ℤ :=
  Car.sub (carAt s ((rosterOf s l).getD (i + 1) 0)) (carAt s ((rosterOf s l).getD i 0))

/-- One body run of the gap-evaluation loop of StatefulEnv.step (lines
246-256): draw the safe distance of the rear car of the pair; when
0 < distance < safe_distance either pass (when _safe approves) or brake with
fraction max(0.005 * safe_distance / distance, 1); when distance <= 0 turn
the rear car red and set the collision flag to it. -/
def evalPair (s : StatefulEnv) (o : Oracle) (lidx i k : ℕ) : StatefulEnv × ℕ :=
  let vi := (rosterOf s lidx).getD i 0
  let ci := carAt s vi
  let distance : ℤ := pairDist s lidx i
  let sd := ci.safe_distance (o.real k)
  let sk1 :=
    if (distance : ℝ) < sd ∧ 0 < distance then
      match s._safe ci o (k + 1) with
      | (res, s2, k2) =>
        if res = true then (updateCar s2 vi Car.pass_, k2)
        else
          (updateCar s2 vi (fun c => c.brake (max ((0.005 : ℝ) * sd / ((distance : ℤ) : ℝ)) 1)), k2)
    else (s, k + 1)
  if distance ≤ 0 then
    ({ updateCar sk1.1 vi (fun c => { c with colour := Colour.r }) with
        collision := some vi },
      sk1.2)
  else sk1

/-- for i in range(len(vehicle_list) - 1): the inner gap-evaluation loop over
the pair indices of one lane. -/
def gapLoopPairs (o : Oracle) (lidx : ℕ) : List ℕ → StatefulEnv → ℕ → StatefulEnv × ℕ
  | [], s, k => (s, k)
  | i :: rest, s, k =>
    match evalPair s o lidx i k with
    | (s1, k1) => gapLoopPairs o lidx rest s1 k1

/-- for vehicle_list in self.lane_occupancy: the outer gap-evaluation loop
over the lane indices. -/
def gapLoopLanes (o : Oracle) : List ℕ → StatefulEnv → ℕ → StatefulEnv × ℕ
  | [], s, k => (s, k)
  | l :: rest, s, k =>
    match gapLoopPairs o l (List.range ((rosterOf s l).length - 1)) s k with
    | (s1, k1) => gapLoopLanes o rest s1 k1

/-- StatefulEnv.step(action): reset the collision flag, run the per-vehicle
loop with free lanes initialised to range(1, nb_lanes), the spawn step, the
gap evaluation, then produce reward -0.001 and done = frame >= 10000 and
increment the frame counter.  Returns (state, reward, done). -/
def StatefulEnv.step (s0 : StatefulEnv) (o : Oracle) : StatefulEnv × ℝ × Bool :=
  let s := { s0 with collision := none }
  match phase1Loop o s.vehicles.length s (List.range' 1 (s.nb_lanes - 1)) 0 0 with
  | (s1, free1, k1) =>
    match phase2 s1 free1 o k1 with
    | (s2, k2) =>
      match gapLoopLanes o (List.range s2.lane_occupancy.length) s2 k2 with
      | (s3, _) =>
        ({ s3 with frame := s3.frame + 1 }, -0.001, decide (10000 ≤ s3.frame))

/-- Modelled from the spec's words for the refinement claim about the
collision flag: the scan of all consecutive same-lane pairs in lane-then-index
order, where every pair with gap <= 0 overwrites the flag with its rear
vehicle, so the final flag is the last such pair found. -/
def scanCollision (s : StatefulEnv) : Option ℕ :=
  (List.range s.lane_occupancy.length).foldl
    (fun acc l =>
      (List.range ((rosterOf s l).length - 1)).foldl
        (fun acc2 i =>
          if pairDist s l i ≤ 0 then some ((rosterOf s l).getD i 0) else acc2)
        acc)
    s.collision

/-- The roster of lane l is sorted ascending by vehicle rear position. -/
def rosterSorted (s : StatefulEnv) (l : ℕ) : Prop :=
  List.Pairwise (fun a b => (carAt s a).back ≤ (carAt s b).back) (rosterOf s l)

/-- The two states agree on the longitudinal extent of every car (position x
and length, hence front and back). -/
def carsAgree (s t : StatefulEnv) : Prop :=
  ∀ id_, (carAt t id_).x = (carAt s id_).x ∧ (carAt t id_).length = (carAt s id_).length

/-- A concrete aligned car used by the concrete scenarios: travelling
straight (target_lane = y) with the geometry of a spawned sedan (length 26,
width 10) and dt = 1/30 (fps 30). -/
def carTpl (x0 speed0 y0 : ℝ) : Car :=
  { length := 26
    width := 10
    dirx := 1
    diry := 0
    x := x0
    y := y0
    target_speed := speed0
    speed := speed0
    dt := 1 / 30
    colour := Colour.c
    braked := false
    passing := false
    target_lane := y0 }

/-- A concrete environment with the default configuration (4 lanes, fps 30,
traffic rate 15, screen width 80 * LANE_W = 1600, lanes built at offset
int(1.5 * LANE_W) = 30). -/
def envTpl (cars0 : List Car) (veh : List ℕ) (lo : List (List ℕ)) : StatefulEnv :=
  { nb_lanes := 4
    delta_t := 1 / 30
    traffic_rate := 15
    screen_w := 1600
    frame := 0
    lanes := build_lanes 30 4
    cars := cars0
    vehicles := veh
    lane_occupancy := lo
    collision := none }

/-- An oracle whose gauss factors are all 0 and whose uniform draws are all 0
(draws only matter where a scenario says so). -/
def oZero : Oracle := ⟨fun _ => 0, fun _ => 0⟩

/-- Scenario for C1: two overlapping cars in lane 1, the rear one faster
(such states arise because a collided pair keeps moving and the branch that
brakes requires a positive gap, so an overlapping faster car coasts through
the car ahead).  Rear positions 100 and 103 (sorted); after one tick they are
105 and 104 (no lane membership changes, so the roster keeps its order). -/
def S1 : StatefulEnv :=
  envTpl [carTpl 100 150 55, carTpl 103 30 55] [0, 1] [[], [0, 1], [], []]

/-- Scenario for C2: car 0 ends the tick past the far boundary (1596 + 5 >
1600) and is culled; car 1 follows it in the iteration order of
self.vehicles. -/
def S2 : StatefulEnv :=
  envTpl [carTpl 1596 150 55, carTpl 100 150 55] [0, 1] [[], [1, 0], [], []]

/-- Scenario for C3: three cars in lane 1 forming two overlapping consecutive
pairs (distances 120 - 126 = -6 and 140 - 146 = -6). -/
def S3 : StatefulEnv :=
  envTpl [carTpl 100 100 55, carTpl 120 100 55, carTpl 140 100 55] [0, 1, 2]
    [[], [0, 1, 2], [], []]

/-- Scenario for C4: exactly one consecutive pair, in lane 1, with gap
exactly 0 (126 - 126). -/
def S4 : StatefulEnv :=
  envTpl [carTpl 100 100 55, carTpl 126 100 55] [0, 1] [[], [0, 1], [], []]

/-- Scenario for C6 and C7: two cars in lane 0 (y = 35) with gap 1
(127 - 126); the gauss draw for the rear car's safe distance is 3, giving
safe_distance = 300 and braking fraction max(0.005 * 300 / 1, 1) = 1.5. -/
def S6 : StatefulEnv :=
  envTpl [carTpl 100 100 35, carTpl 127 100 35] [0, 1] [[0, 1], [], [], []]

/-- The oracle for scenario S6: first real draw 3, all others 0. -/
def o6 : Oracle := ⟨fun i => if i = 0 then 3 else 0, fun _ => 0⟩

/-- An oracle whose real draws are all 1/2 (a legitimate value of
random.random()), used for the no-spawn scenario. -/
def oHalf : Oracle := ⟨fun _ => 1 / 2, fun _ => 0⟩

end

/-! ## General helper lemmas -/

lemma getD_set (l : List α) (i j : ℕ) (a d : α) :
    (l.set i a).getD j d = if i = j ∧ j < l.length then a else l.getD j d := by
  induction l generalizing i j with
  | nil => simp [List.set]
  | cons hd tl ih =>
    cases i with
    | zero => cases j <;> simp [List.set]
    | succ i' =>
      cases j with
      | zero => simp [List.set]
      | succ j' => simpa [List.set, Nat.succ_lt_succ_iff] using ih i' j'

lemma carAt_updateCar (s : StatefulEnv) (vid id_ : ℕ) (f : Car → Car) :
    carAt (updateCar s vid f) id_ =
      if vid = id_ ∧ id_ < s.cars.length then f (carAt s id_) else carAt s id_ := by
  unfold carAt updateCar
  rw [getD_set]
  rcases Decidable.em (vid = id_ ∧ id_ < s.cars.length) with h | h
  · rw [if_pos h, if_pos h, h.1]
  · rw [if_neg h, if_neg h]

lemma updateCar_vehicles (s : StatefulEnv) (vid : ℕ) (f : Car → Car) :
    (updateCar s vid f).vehicles = s.vehicles := rfl

lemma updateCar_lane_occupancy (s : StatefulEnv) (vid : ℕ) (f : Car → Car) :
    (updateCar s vid f).lane_occupancy = s.lane_occupancy := rfl

lemma updateCar_frame (s : StatefulEnv) (vid : ℕ) (f : Car → Car) :
    (updateCar s vid f).frame = s.frame := rfl

lemma updateCar_collision (s : StatefulEnv) (vid : ℕ) (f : Car → Car) :
    (updateCar s vid f).collision = s.collision := rfl

lemma mem_filterP (p : α → Prop) (a : α) (l : List α) :
    a ∈ filterP p l ↔ a ∈ l ∧ p a := by
  induction l with
  | nil => simp [filterP]
  | cons hd tl ih =>
    by_cases h : p hd
    · simp only [filterP, if_pos h, List.mem_cons, ih]
      constructor
      · rintro (rfl | ⟨h1, h2⟩)
        · exact ⟨Or.inl rfl, h⟩
        · exact ⟨Or.inr h1, h2⟩
      · rintro ⟨rfl | h1, h2⟩
        · exact Or.inl rfl
        · exact Or.inr ⟨h1, h2⟩
    · simp only [filterP, if_neg h, ih, List.mem_cons]
      constructor
      · rintro ⟨h1, h2⟩
        exact ⟨Or.inr h1, h2⟩
      · rintro ⟨rfl | h1, h2⟩
        · exact absurd h2 h
        · exact ⟨h1, h2⟩

lemma setPop_filterP_range (p : ℕ → Prop) (n : ℕ)
    (h : 0 ∈ filterP p (List.range n)) :
    setPop (filterP p (List.range n)) = 0 := by
  cases n with
  | zero => simp [filterP] at h
  | succ m =>
    rw [List.range_succ_eq_map] at h ⊢
    by_cases hp : p 0
    · simp [filterP, hp, setPop]
    · exfalso
      have h0 : 0 ∈ filterP p (List.map Nat.succ (List.range m)) := by
        simpa [filterP, hp] using h
      have h1 := (mem_filterP p 0 _).mp h0
      simp at h1

lemma setPop_lane_set (c : Car) (lanes : List Lane)
    (h : 0 ∈ c.get_lane_set lanes) : setPop (c.get_lane_set lanes) = 0 :=
  setPop_filterP_range _ _ h

lemma lanes4_eq : build_lanes 30 4 =
    [⟨30, 40, 50⟩, ⟨50, 60, 70⟩, ⟨70, 80, 90⟩, ⟨90, 100, 110⟩] := by
  simp only [build_lanes, show List.range 4 = [0, 1, 2, 3] from by decide, List.map]
  norm_num [LANE_W, Lane.mk.injEq]

/-! ## Car operation algebra -/

lemma brake_of_not_passing (c : Car) (f : ℝ) (h : c.passing = false) :
    c.brake f = { c with speed := c.speed + (-f * 9.81 * 0.9 * SCALE) * c.dt,
                         colour := Colour.y, braked := true } := by
  simp [Car.brake, h]

lemma brake_of_passing (c : Car) (f : ℝ) (h : c.passing = true) :
    c.brake f = c := by
  simp [Car.brake, h]

lemma pass_of_passing (c : Car) (h : c.passing = true) : c.pass_ = c := by
  simp [Car.pass_, h]

lemma pass_of_not_passing (c : Car) (h : c.passing = false) :
    c.pass_ = { c with target_lane := c.y - LANE_W, passing := true,
                       colour := Colour.m, braked := false } := by
  simp [Car.pass_, h]

lemma brake_x (c : Car) (f : ℝ) : (c.brake f).x = c.x := by
  unfold Car.brake; split <;> rfl

lemma brake_length (c : Car) (f : ℝ) : (c.brake f).length = c.length := by
  unfold Car.brake; split <;> rfl

lemma brake_target_lane (c : Car) (f : ℝ) : (c.brake f).target_lane = c.target_lane := by
  unfold Car.brake; split <;> rfl

lemma brake_passing (c : Car) (f : ℝ) : (c.brake f).passing = c.passing := by
  unfold Car.brake; split
  · rfl
  · simp_all

lemma pass_x (c : Car) : (c.pass_).x = c.x := by
  unfold Car.pass_; split <;> rfl

lemma pass_length (c : Car) : (c.pass_).length = c.length := by
  unfold Car.pass_; split <;> rfl

lemma step_target_lane (c : Car) : (c.step).target_lane = c.target_lane := by
  simp only [Car.step]
  split <;> rfl

lemma step_aligned (c : Car) (h : c.target_lane = c.y) :
    c.step = { c with dirx := 1, diry := 0, x := c.x + c.speed * c.dt,
                      passing := false, colour := Colour.c } := by
  simp only [Car.step, h, sub_self, round_zero, Int.cast_zero, mul_zero]
  norm_num

lemma stepTpl (x0 v0 y0 : ℝ) :
    (carTpl x0 v0 y0).step = carTpl (x0 + v0 * (1 / 30)) v0 y0 := by
  rw [step_aligned (carTpl x0 v0 y0) rfl]
  simp [carTpl]

lemma laneset_55 (c : Car) (hy : c.y = 55) (hw : c.width = 10) :
    c.get_lane_set (build_lanes 30 4) = [1] := by
  rw [lanes4_eq]
  simp only [Car.get_lane_set,
    show (([⟨30, 40, 50⟩, ⟨50, 60, 70⟩, ⟨70, 80, 90⟩, ⟨90, 100, 110⟩] : List Lane)).length = 4
      from rfl,
    show List.range 4 = [0, 1, 2, 3] from by decide, filterP, hy, hw]
  norm_num

lemma laneset_35 (c : Car) (hy : c.y = 35) (hw : c.width = 10) :
    c.get_lane_set (build_lanes 30 4) = [0] := by
  rw [lanes4_eq]
  simp only [Car.get_lane_set,
    show (([⟨30, 40, 50⟩, ⟨50, 60, 70⟩, ⟨70, 80, 90⟩, ⟨90, 100, 110⟩] : List Lane)).length = 4
      from rfl,
    show List.range 4 = [0, 1, 2, 3] from by decide, filterP, hy, hw]
  norm_num

lemma int_intCast (n : ℤ) : int_ ((n : ℤ) : ℝ) = n := by
  rcases le_or_lt 0 ((n : ℤ) : ℝ) with h | h
  · simp [int_, h]
  · simp [int_, not_le.mpr h, Int.ceil_intCast]

/-! ## Purity of the safety evaluator -/

lemma safe_stateEq (s : StatefulEnv) (v : Car) (o : Oracle) (k : ℕ) :
    (s._safe v o k).2.1 = s := by
  unfold StatefulEnv._safe
  dsimp only []
  split_ifs <;> rfl

lemma safe_lane0 (s : StatefulEnv) (v : Car) (o : Oracle) (k : ℕ)
    (h : 0 ∈ v.get_lane_set s.lanes) :
    (s._safe v o k).1 = false := by
  unfold StatefulEnv._safe
  rw [setPop_lane_set v s.lanes h]
  dsimp only []
  split_ifs <;> simp_all

/-! ## Frame and collision behaviour of the gap-evaluation phase -/

lemma carsAgree_refl (s : StatefulEnv) : carsAgree s s := fun _ => ⟨rfl, rfl⟩

lemma carsAgree_trans {s t u : StatefulEnv} (h1 : carsAgree s t)
    (h2 : carsAgree t u) : carsAgree s u :=
  fun i => ⟨(h2 i).1.trans (h1 i).1, (h2 i).2.trans (h1 i).2⟩

lemma carsAgree_updateCar (s : StatefulEnv) (vid : ℕ) (f : Car → Car)
    (hf : ∀ c, (f c).x = c.x ∧ (f c).length = c.length) :
    carsAgree s (updateCar s vid f) := by
  intro i
  rw [carAt_updateCar]
  split_ifs with h
  · rcases h with ⟨rfl, -⟩
    exact hf _
  · exact ⟨rfl, rfl⟩

lemma back_congr {s t : StatefulEnv} (h : carsAgree s t) (id_ : ℕ) :
    (carAt t id_).back = (carAt s id_).back := by
  unfold Car.back
  rw [(h id_).1]

lemma front_congr {s t : StatefulEnv} (h : carsAgree s t) (id_ : ℕ) :
    (carAt t id_).front = (carAt s id_).front := by
  unfold Car.front
  rw [(h id_).1, (h id_).2]

lemma pairDist_congr {s t : StatefulEnv} (hocc : t.lane_occupancy = s.lane_occupancy)
    (h : carsAgree s t) (l i : ℕ) : pairDist t l i = pairDist s l i := by
  unfold pairDist rosterOf Car.sub
  rw [hocc, back_congr h, front_congr h]
lemma carsAgree_setCollision {s t : StatefulEnv} (h : carsAgree s t) (v : Option ℕ) :
    carsAgree s { t with collision := v } := fun i => h i

lemma evalPair_spec (s : StatefulEnv) (o : Oracle) (lidx i k : ℕ) :
    (evalPair s o lidx i k).1.vehicles = s.vehicles ∧
    (evalPair s o lidx i k).1.lane_occupancy = s.lane_occupancy ∧
    (evalPair s o lidx i k).1.frame = s.frame ∧
    carsAgree s (evalPair s o lidx i k).1 ∧
    (evalPair s o lidx i k).1.collision =
      (if pairDist s lidx i ≤ 0 then some ((rosterOf s lidx).getD i 0) else s.collision) := by
  unfold evalPair
  dsimp only []
  rcases hsafe : s._safe (carAt s ((rosterOf s lidx).getD i 0)) o (k + 1) with ⟨res, s2, k2⟩
  have hs2 : s2 = s := by
    have h0 := safe_stateEq s (carAt s ((rosterOf s lidx).getD i 0)) o (k + 1)
    rw [hsafe] at h0
    exact h0
  subst hs2
  dsimp only []
  split_ifs with h1 h2 h3
  all_goals try (exfalso; exact absurd h1 (not_le.mpr h2.2))
  all_goals (refine ⟨?_, ?_, ?_, ?_, ?_⟩)
  all_goals try rfl
  all_goals first
    | exact carsAgree_refl _
    | exact @carsAgree_setCollision s2
        (updateCar s2 ((rosterOf s2 lidx).getD i 0) (fun c => { c with colour := Colour.r }))
        (carsAgree_updateCar _ _ _ (fun c => ⟨rfl, rfl⟩)) (some ((rosterOf s2 lidx).getD i 0))
    | exact carsAgree_updateCar _ _ _ (fun c => ⟨pass_x c, pass_length c⟩)
    | exact carsAgree_updateCar _ _ _ (fun c => ⟨brake_x c _, brake_length c _⟩)

lemma foldl_ext_eq {α β : Type} {f g : β → α → β} (l : List α)
    (hfg : ∀ b a, a ∈ l → f b a = g b a) : ∀ b, l.foldl f b = l.foldl g b := by
  induction l with
  | nil => intro b; rfl
  | cons hd tl ih =>
    intro b
    rw [List.foldl_cons, List.foldl_cons, hfg b hd (List.mem_cons_self hd tl)]
    exact ih (fun b a ha => hfg b a (List.mem_cons_of_mem hd ha)) _

lemma gapLoopPairs_spec (o : Oracle) (lidx : ℕ) (idxs : List ℕ) :
    ∀ s k,
      (gapLoopPairs o lidx idxs s k).1.vehicles = s.vehicles ∧
      (gapLoopPairs o lidx idxs s k).1.lane_occupancy = s.lane_occupancy ∧
      (gapLoopPairs o lidx idxs s k).1.frame = s.frame ∧
      carsAgree s (gapLoopPairs o lidx idxs s k).1 ∧
      (gapLoopPairs o lidx idxs s k).1.collision =
        idxs.foldl
          (fun acc i => if pairDist s lidx i ≤ 0 then some ((rosterOf s lidx).getD i 0) else acc)
          s.collision := by
  induction idxs with
  | nil => intro s k; exact ⟨rfl, rfl, rfl, carsAgree_refl s, rfl⟩
  | cons i rest ih =>
    intro s k
    unfold gapLoopPairs
    rcases hE : evalPair s o lidx i k with ⟨s1, k1⟩
    obtain ⟨hv, ho, hf, ha, hc⟩ := evalPair_spec s o lidx i k
    rw [hE] at hv ho hf ha hc
    dsimp only [] at hv ho hf ha hc ⊢
    obtain ⟨hv2, ho2, hf2, ha2, hc2⟩ := ih s1 k1
    have hroster : rosterOf s1 lidx = rosterOf s lidx := by unfold rosterOf; rw [ho]
    have hpd : ∀ j, pairDist s1 lidx j = pairDist s lidx j := fun j =>
      pairDist_congr ho ha lidx j
    refine ⟨hv2.trans hv, ho2.trans ho, hf2.trans hf, carsAgree_trans ha ha2, ?_⟩
    rw [hc2, List.foldl_cons, hc]
    exact foldl_ext_eq rest (fun b a _ => by rw [hpd a, hroster]) _

lemma gapLoopLanes_spec (o : Oracle) (ls : List ℕ) :
    ∀ s k,
      (gapLoopLanes o ls s k).1.vehicles = s.vehicles ∧
      (gapLoopLanes o ls s k).1.lane_occupancy = s.lane_occupancy ∧
      (gapLoopLanes o ls s k).1.frame = s.frame ∧
      carsAgree s (gapLoopLanes o ls s k).1 ∧
      (gapLoopLanes o ls s k).1.collision =
        ls.foldl
          (fun acc l =>
            (List.range ((rosterOf s l).length - 1)).foldl
              (fun acc2 i =>
                if pairDist s l i ≤ 0 then some ((rosterOf s l).getD i 0) else acc2)
              acc)
          s.collision := by
  induction ls with
  | nil => intro s k; exact ⟨rfl, rfl, rfl, carsAgree_refl s, rfl⟩
  | cons l rest ih =>
    intro s k
    unfold gapLoopLanes
    rcases hP : gapLoopPairs o l (List.range ((rosterOf s l).length - 1)) s k with ⟨s1, k1⟩
    obtain ⟨hv, ho, hf, ha, hc⟩ := gapLoopPairs_spec o l (List.range ((rosterOf s l).length - 1)) s k
    rw [hP] at hv ho hf ha hc
    dsimp only [] at hv ho hf ha hc ⊢
    obtain ⟨hv2, ho2, hf2, ha2, hc2⟩ := ih s1 k1
    have hroster : ∀ l2, rosterOf s1 l2 = rosterOf s l2 := by
      intro l2; unfold rosterOf; rw [ho]
    have hpd : ∀ l2 j, pairDist s1 l2 j = pairDist s l2 j := fun l2 j =>
      pairDist_congr ho ha l2 j
    refine ⟨hv2.trans hv, ho2.trans ho, hf2.trans hf, carsAgree_trans ha ha2, ?_⟩
    rw [hc2, List.foldl_cons, hc]
    refine foldl_ext_eq rest (fun b a _ => ?_) _
    rw [hroster a]
    exact foldl_ext_eq _ (fun b2 a2 _ => by rw [hpd a a2]) _

lemma phase3_spec (s : StatefulEnv) (o : Oracle) (k : ℕ) :
    (gapLoopLanes o (List.range s.lane_occupancy.length) s k).1.vehicles = s.vehicles ∧
    (gapLoopLanes o (List.range s.lane_occupancy.length) s k).1.lane_occupancy = s.lane_occupancy ∧
    (gapLoopLanes o (List.range s.lane_occupancy.length) s k).1.frame = s.frame ∧
    carsAgree s (gapLoopLanes o (List.range s.lane_occupancy.length) s k).1 ∧
    (gapLoopLanes o (List.range s.lane_occupancy.length) s k).1.collision = scanCollision s := by
  obtain ⟨hv, ho, hf, ha, hc⟩ := gapLoopLanes_spec o (List.range s.lane_occupancy.length) s k
  exact ⟨hv, ho, hf, ha, hc⟩
lemma processVehicle_frame (s : StatefulEnv) (free : List ℕ) (o : Oracle) (k vid : ℕ) :
    (processVehicle s free o k vid).1.frame = s.frame := by
  unfold processVehicle reconcileLanes cull
  dsimp only []
  split_ifs <;> rfl

lemma phase1Loop_frame (o : Oracle) :
    ∀ fuel s free j k, (phase1Loop o fuel s free j k).1.frame = s.frame := by
  intro fuel
  induction fuel with
  | zero => intro s free j k; rfl
  | succ n ih =>
    intro s free j k
    unfold phase1Loop
    split_ifs with h
    · rcases hPV : processVehicle s free o k (s.vehicles.getD j 0) with ⟨s1, f1, k1⟩
      have hfr := processVehicle_frame s free o k (s.vehicles.getD j 0)
      rw [hPV] at hfr
      dsimp only []
      rw [ih s1 f1 (j + 1) k1]
      exact hfr
    · rfl

lemma phase2_frame (s : StatefulEnv) (free : List ℕ) (o : Oracle) (k : ℕ) :
    (phase2 s free o k).1.frame = s.frame := by
  unfold phase2
  dsimp only []
  split_ifs <;> rfl

lemma step_done (s : StatefulEnv) (o : Oracle) :
    (StatefulEnv.step s o).2.2 = decide (10000 ≤ s.frame) := by
  unfold StatefulEnv.step
  dsimp only []
  rcases h1 : phase1Loop o ({ s with collision := none } : StatefulEnv).vehicles.length
      { s with collision := none }
      (List.range' 1 (({ s with collision := none } : StatefulEnv).nb_lanes - 1)) 0 0 with
    ⟨s1, free1, k1⟩
  have hf1 := phase1Loop_frame o ({ s with collision := none } : StatefulEnv).vehicles.length
      { s with collision := none }
      (List.range' 1 (({ s with collision := none } : StatefulEnv).nb_lanes - 1)) 0 0
  rw [h1] at hf1
  rcases h2 : phase2 s1 free1 o k1 with ⟨s2, k2⟩
  have hf2 := phase2_frame s1 free1 o k1
  rw [h2] at hf2
  rcases h3 : gapLoopLanes o (List.range s2.lane_occupancy.length) s2 k2 with ⟨s3, k3⟩
  have hf3 := (phase3_spec s2 o k2).2.2.1
  rw [h3] at hf3
  dsimp only []
  rw [hf3, hf2, hf1]
lemma bisectLoop_spec (p : ℕ → Prop) (n : ℕ)
    (hm : ∀ i j, i ≤ j → j < n → p i → p j) :
    ∀ fuel lo hi, lo ≤ hi → hi ≤ n → hi - lo ≤ fuel →
      lo ≤ bisectLoop p fuel lo hi ∧ bisectLoop p fuel lo hi ≤ hi ∧
      (∀ i, lo ≤ i → i < bisectLoop p fuel lo hi → ¬ p i) ∧
      (∀ i, bisectLoop p fuel lo hi ≤ i → i < hi → p i) := by
  intro fuel
  induction fuel with
  | zero =>
    intro lo hi hlohi hhn hfuel
    have heq : lo = hi := by omega
    subst heq
    unfold bisectLoop
    exact ⟨le_refl _, le_refl _, fun i h1 h2 => by omega, fun i h1 h2 => by omega⟩
  | succ m ih =>
    intro lo hi hlohi hhn hfuel
    unfold bisectLoop
    by_cases hlh : lo < hi
    · rw [if_pos hlh]
      by_cases hp : p ((lo + hi) / 2)
      · rw [if_pos hp]
        obtain ⟨r1, r2, r3, r4⟩ := ih lo ((lo + hi) / 2) (by omega) (by omega) (by omega)
        refine ⟨r1, by omega, r3, ?_⟩
        intro i hi1 hi2
        rcases lt_or_ge i ((lo + hi) / 2) with h | h
        · exact r4 i hi1 h
        · exact hm ((lo + hi) / 2) i h (by omega) hp
      · rw [if_neg hp]
        obtain ⟨r1, r2, r3, r4⟩ := ih ((lo + hi) / 2 + 1) hi (by omega) hhn (by omega)
        refine ⟨by omega, r2, ?_, r4⟩
        intro i hi1 hi2
        rcases lt_or_ge i ((lo + hi) / 2 + 1) with h | h
        · intro hpi
          exact hp (hm i ((lo + hi) / 2) (by omega) (by omega) hpi)
        · exact r3 i h hi2
    · rw [if_neg hlh]
      have heq : lo = hi := by omega
      subst heq
      exact ⟨le_refl _, le_refl _, fun i h1 h2 => by omega, fun i h1 h2 => by omega⟩

lemma getD_eq_getElem {l : List α} {i : ℕ} (h : i < l.length) (d : α) :
    l.getD i d = l[i] := by
  simp [List.getD_eq_getElem?_getD, List.getElem?_eq_getElem h]

lemma insortRoster_sorted (s : StatefulEnv) (vid : ℕ) (l : List ℕ)
    (hsorted : List.Pairwise (fun a b => (carAt s a).back ≤ (carAt s b).back) l)
    (hdisj : ∀ w ∈ l, carLt (carAt s vid) (carAt s w) ∨ carLt (carAt s w) (carAt s vid))
    (hwf : ∀ w ∈ l, (carAt s w).back ≤ (carAt s w).front)
    (hv : (carAt s vid).back ≤ (carAt s vid).front) :
    List.Pairwise (fun a b => (carAt s a).back ≤ (carAt s b).back)
      (insortRoster s vid l) := by
  have hR := List.pairwise_iff_getElem.mp hsorted
  have hmono : ∀ i j, i ≤ j → j < l.length →
      (fun idx => carLt (carAt s vid) (carAt s (l.getD idx default))) i →
      (fun idx => carLt (carAt s vid) (carAt s (l.getD idx default))) j := by
    intro i j hij hj hp
    rcases eq_or_lt_of_le hij with rfl | hlt
    · exact hp
    · have hi : i < l.length := lt_trans hlt hj
      rw [getD_eq_getElem hi] at hp
      rw [getD_eq_getElem hj]
      have hle := hR i j hi hj hlt
      unfold carLt at hp ⊢
      omega
  obtain ⟨r1, r2, r3, r4⟩ :=
    bisectLoop_spec (fun idx => carLt (carAt s vid) (carAt s (l.getD idx default)))
      l.length hmono l.length 0 l.length (Nat.zero_le _) (le_refl _) (by omega)
  unfold insortRoster insort_right bisect_right
  set r := bisectLoop (fun idx => carLt (carAt s vid) (carAt s (l.getD idx default)))
      l.length 0 l.length with hrdef
  rw [List.pairwise_append]
  refine ⟨List.Pairwise.sublist (List.take_sublist r l) hsorted, ?_, ?_⟩
  · rw [List.pairwise_cons]
    constructor
    · intro b hb
      obtain ⟨j, hj, hbj⟩ := List.mem_iff_getElem.mp hb
      have hjlen : r + j < l.length := by
        have := hj
        rw [List.length_drop] at this
        omega
      have hP := r4 (r + j) (Nat.le_add_right r j) hjlen
      rw [getD_eq_getElem hjlen] at hP
      rw [List.getElem_drop' l hjlen] at hP
      rw [hbj] at hP
      unfold carLt at hP
      omega
    · exact List.Pairwise.sublist (List.drop_sublist r l) hsorted
  · intro a ha b hb
    obtain ⟨i, hi, hai⟩ := List.mem_iff_getElem.mp ha
    have hir : i < r := by
      have := hi
      rw [List.length_take] at this
      omega
    have hilen : i < l.length := by
      have := hi
      rw [List.length_take] at this
      omega
    have hal : a ∈ l := by
      rw [← hai, List.getElem_take]
      exact List.getElem_mem _
    have hnP := r3 i (Nat.zero_le i) hir
    rw [getD_eq_getElem hilen] at hnP
    have hageta : l[i] = a := by
      rw [← hai, List.getElem_take]
    rw [hageta] at hnP
    have haltv : carLt (carAt s a) (carAt s vid) := by
      rcases hdisj a hal with h | h
      · exact absurd h hnP
      · exact h
    rcases List.mem_cons.mp hb with rfl | hbd
    · unfold carLt at haltv
      have := hwf a hal
      omega
    · obtain ⟨j, hj, hbj⟩ := List.mem_iff_getElem.mp hbd
      have hjlen : r + j < l.length := by
        have := hj
        rw [List.length_drop] at this
        omega
      have hij : i < r + j := by omega
      have hle := hR i (r + j) hilen hjlen hij
      rw [hageta] at hle
      rw [List.getElem_drop' l hjlen, hbj] at hle
      exact hle
lemma innerFold_no_fire (s : StatefulEnv) (l : ℕ) (idxs : List ℕ) (acc : Option ℕ)
    (h : ∀ i ∈ idxs, ¬ pairDist s l i ≤ 0) :
    idxs.foldl
      (fun acc2 i => if pairDist s l i ≤ 0 then some ((rosterOf s l).getD i 0) else acc2)
      acc = acc := by
  induction idxs generalizing acc with
  | nil => rfl
  | cons j rest ih =>
    rw [List.foldl_cons, if_neg (h j (List.mem_cons_self j rest))]
    exact ih acc (fun x hx => h x (List.mem_cons_of_mem j hx))

lemma innerFold_unique (s : StatefulEnv) (l i : ℕ) (idxs : List ℕ) (acc : Option ℕ)
    (hmem : i ∈ idxs) (h : ∀ x ∈ idxs, pairDist s l x ≤ 0 → x = i)
    (hfire : pairDist s l i ≤ 0) :
    idxs.foldl
      (fun acc2 x => if pairDist s l x ≤ 0 then some ((rosterOf s l).getD x 0) else acc2)
      acc = some ((rosterOf s l).getD i 0) := by
  induction idxs generalizing acc with
  | nil => simp at hmem
  | cons j rest ih =>
    rw [List.foldl_cons]
    by_cases hj : pairDist s l j ≤ 0
    · have hji : j = i := h j (List.mem_cons_self j rest) hj
      subst hji
      rw [if_pos hj]
      by_cases hjr : j ∈ rest
      · exact ih _ hjr (fun x hx => h x (List.mem_cons_of_mem j hx))
      · refine innerFold_no_fire s l rest _ (fun x hx hxf => ?_)
        have := h x (List.mem_cons_of_mem j hx) hxf
        subst this
        exact hjr hx
    · rw [if_neg hj]
      have him : i ∈ rest := by
        rcases List.mem_cons.mp hmem with rfl | hm
        · exact absurd hfire hj
        · exact hm
      exact ih _ him (fun x hx => h x (List.mem_cons_of_mem j hx))

lemma outerFold_no_fire (s : StatefulEnv) (ls : List ℕ) (acc : Option ℕ)
    (h : ∀ lp ∈ ls, ∀ i, i + 1 < (rosterOf s lp).length → ¬ pairDist s lp i ≤ 0) :
    ls.foldl
      (fun acc2 lp =>
        (List.range ((rosterOf s lp).length - 1)).foldl
          (fun acc3 i => if pairDist s lp i ≤ 0 then some ((rosterOf s lp).getD i 0) else acc3)
          acc2)
      acc = acc := by
  induction ls generalizing acc with
  | nil => rfl
  | cons hd rest ih =>
    rw [List.foldl_cons]
    rw [innerFold_no_fire s hd _ acc (fun x hx => by
      have hxb : x + 1 < (rosterOf s hd).length := by
        have := List.mem_range.mp hx
        omega
      exact h hd (List.mem_cons_self hd rest) x hxb)]
    exact ih acc (fun lp hlp => h lp (List.mem_cons_of_mem hd hlp))

lemma outerFold_unique (s : StatefulEnv) (l i : ℕ)
    (hi : i + 1 < (rosterOf s l).length)
    (hfire : pairDist s l i ≤ 0)
    (ls : List ℕ)
    (hun : ∀ lp ∈ ls, ∀ x, x + 1 < (rosterOf s lp).length → pairDist s lp x ≤ 0 →
      lp = l ∧ x = i) :
    ∀ acc, l ∈ ls →
      ls.foldl
        (fun acc2 lp =>
          (List.range ((rosterOf s lp).length - 1)).foldl
            (fun acc3 x => if pairDist s lp x ≤ 0 then some ((rosterOf s lp).getD x 0) else acc3)
            acc2)
        acc = some ((rosterOf s l).getD i 0) := by
  induction ls with
  | nil => intro acc hmem; simp at hmem
  | cons hd rest ih =>
    intro acc hmem
    rw [List.foldl_cons]
    by_cases hhd : hd = l
    · subst hhd
      rw [innerFold_unique s hd i _ acc (by rw [List.mem_range]; omega)
        (fun x hx hxf =>
          (hun hd (List.mem_cons_self hd rest) x
            (by have := List.mem_range.mp hx; omega) hxf).2)
        hfire]
      by_cases hrest : hd ∈ rest
      · exact ih (fun lp hlp => hun lp (List.mem_cons_of_mem hd hlp)) _ hrest
      · refine outerFold_no_fire s rest _ (fun lp hlp x hxb hxf => ?_)
        have := (hun lp (List.mem_cons_of_mem hd hlp) x hxb hxf).1
        subst this
        exact hrest hlp
    · rw [innerFold_no_fire s hd _ acc (fun x hx hxf => by
        have hxb : x + 1 < (rosterOf s hd).length := by
          have := List.mem_range.mp hx
          omega
        exact hhd (hun hd (List.mem_cons_self hd rest) x hxb hxf).1)]
      have hlr : l ∈ rest := by
        rcases List.mem_cons.mp hmem with rfl | hm
        · exact absurd rfl hhd
        · exact hm
      exact ih (fun lp hlp => hun lp (List.mem_cons_of_mem hd hlp)) _ hlr

lemma scanCollision_unique (s : StatefulEnv) (l i : ℕ)
    (hl : l < s.lane_occupancy.length)
    (hi : i + 1 < (rosterOf s l).length)
    (hfire : pairDist s l i ≤ 0)
    (hun : ∀ lp x, lp < s.lane_occupancy.length → x + 1 < (rosterOf s lp).length →
      pairDist s lp x ≤ 0 → lp = l ∧ x = i) :
    scanCollision s = some ((rosterOf s l).getD i 0) := by
  unfold scanCollision
  exact outerFold_unique s l i hi hfire (List.range s.lane_occupancy.length)
    (fun lp hlp x hxb hxf => hun lp x (List.mem_range.mp hlp) hxb hxf)
    s.collision (List.mem_range.mpr hl)

/-! ## Concrete scenario evaluations -/

lemma phase1Loop_succ (o : Oracle) (fuel : ℕ) (s : StatefulEnv) (free : List ℕ)
    (j k : ℕ) (h : j < s.vehicles.length) :
    phase1Loop o (fuel + 1) s free j k =
      phase1Loop o fuel (processVehicle s free o k (s.vehicles.getD j 0)).1
        (processVehicle s free o k (s.vehicles.getD j 0)).2.1 (j + 1)
        (processVehicle s free o k (s.vehicles.getD j 0)).2.2 := by
  rcases hPV : processVehicle s free o k (s.vehicles.getD j 0) with ⟨a, b, c⟩
  conv_lhs => unfold phase1Loop
  rw [if_pos h, hPV]

lemma phase1Loop_stop (o : Oracle) (fuel : ℕ) (s : StatefulEnv) (free : List ℕ)
    (j k : ℕ) (h : ¬ j < s.vehicles.length) :
    phase1Loop o (fuel + 1) s free j k = (s, free, k) := by
  unfold phase1Loop
  rw [if_neg h]

lemma pv_S1_0 : processVehicle S1 [1, 2, 3] oZero 0 0 =
    ({ S1 with cars := [carTpl 105 150 55, carTpl 103 30 55] }, [1, 2, 3], 1) := by
  have hstep : Car.step (carTpl 100 150 55) = carTpl 105 150 55 := by
    rw [stepTpl]; norm_num
  have hl1 : (carTpl 105 150 55).get_lane_set (build_lanes 30 4) = [1] :=
    laneset_55 _ rfl rfl
  simp only [processVehicle, S1, envTpl, updateCar, carAt, List.getD_cons_zero,
    List.set_cons_zero, hstep, hl1]
  simp only [reconcileLanes, List.foldl, show List.range 4 = [0, 1, 2, 3] from by decide]
  norm_num [carTpl, Car.safe_distance, oZero, filterP]

lemma pv_S1_1 : processVehicle { S1 with cars := [carTpl 105 150 55, carTpl 103 30 55] }
    [1, 2, 3] oZero 1 1 =
    ({ S1 with cars := [carTpl 105 150 55, carTpl 104 30 55] }, [1, 2, 3], 2) := by
  have hstep : Car.step (carTpl 103 30 55) = carTpl 104 30 55 := by
    rw [stepTpl]; norm_num
  have hl1 : (carTpl 104 30 55).get_lane_set (build_lanes 30 4) = [1] :=
    laneset_55 _ rfl rfl
  simp only [processVehicle, S1, envTpl, updateCar, carAt, List.getD_cons_zero,
    List.getD_cons_succ, List.set_cons_zero, List.set_cons_succ, hstep, hl1]
  simp only [reconcileLanes, List.foldl, show List.range 4 = [0, 1, 2, 3] from by decide]
  norm_num [carTpl, Car.safe_distance, oZero, filterP]

lemma phase1_S1 : (phase1Loop oZero 2 S1 [1, 2, 3] 0 0).1 =
    { S1 with cars := [carTpl 105 150 55, carTpl 104 30 55] } := by
  rw [show (2 : ℕ) = 1 + 1 from rfl,
    phase1Loop_succ oZero 1 S1 [1, 2, 3] 0 0 (by simp [S1, envTpl])]
  rw [show S1.vehicles.getD 0 0 = 0 from rfl, pv_S1_0]
  dsimp only []
  rw [show (1 : ℕ) = 0 + 1 from rfl,
    phase1Loop_succ oZero 0
      { S1 with cars := [carTpl 105 150 55, carTpl 103 30 55] } [1, 2, 3] 1 1
      (by simp [S1, envTpl])]
  rw [show ({ S1 with cars := [carTpl 105 150 55, carTpl 103 30 55] } : StatefulEnv).vehicles.getD 1 0 = 1 from rfl,
    pv_S1_1]
  rfl

lemma pv_S2_0 : processVehicle S2 [1, 2, 3] oZero 0 0 =
    ({ S2 with cars := [carTpl 1601 150 55, carTpl 100 150 55],
               vehicles := [1], lane_occupancy := [[], [1], [], []] }, [1, 2, 3], 1) := by
  have hstep : Car.step (carTpl 1596 150 55) = carTpl 1601 150 55 := by
    rw [stepTpl]; norm_num
  have hl1 : (carTpl 1601 150 55).get_lane_set (build_lanes 30 4) = [1] :=
    laneset_55 _ rfl rfl
  simp only [processVehicle, S2, envTpl, updateCar, carAt, List.getD_cons_zero,
    List.set_cons_zero, hstep, hl1]
  simp only [reconcileLanes, List.foldl, show List.range 4 = [0, 1, 2, 3] from by decide]
  simp only [cull, show (([0, 1] : List ℕ).erase 0) = [1] from by decide,
    show (([1, 0] : List ℕ).erase 0) = [1] from by decide]
  norm_num [carTpl, Car.safe_distance, oZero, filterP]

lemma phase1_S2 : (phase1Loop oZero 2 S2 [1, 2, 3] 0 0).1 =
    { S2 with cars := [carTpl 1601 150 55, carTpl 100 150 55],
              vehicles := [1], lane_occupancy := [[], [1], [], []] } := by
  rw [show (2 : ℕ) = 1 + 1 from rfl,
    phase1Loop_succ oZero 1 S2 [1, 2, 3] 0 0 (by simp [S2, envTpl])]
  rw [show S2.vehicles.getD 0 0 = 0 from rfl, pv_S2_0]
  dsimp only []
  rw [show (1 : ℕ) = 0 + 1 from rfl,
    phase1Loop_stop oZero 0 _ [1, 2, 3] 1 1 (by simp [S2, envTpl])]

lemma pairDist_S3_0 : pairDist S3 1 0 = -6 := by
  norm_num [pairDist, rosterOf, S3, envTpl, carAt, carTpl, Car.sub, Car.back, Car.front, int_]

lemma pairDist_S3_1 : pairDist S3 1 1 = -6 := by
  norm_num [pairDist, rosterOf, S3, envTpl, carAt, carTpl, Car.sub, Car.back, Car.front, int_]

lemma scanCollision_S3 : scanCollision S3 = some 1 := by
  unfold scanCollision
  rw [show S3.lane_occupancy.length = 4 from rfl,
    show List.range 4 = [0, 1, 2, 3] from by decide]
  simp only [List.foldl]
  rw [pairDist_S3_0, pairDist_S3_1]
  norm_num [show rosterOf S3 1 = [0, 1, 2] from rfl]

lemma pairDist_S4 : pairDist S4 1 0 = 0 := by
  norm_num [pairDist, rosterOf, S4, envTpl, carAt, carTpl, Car.sub, Car.back, Car.front, int_]

lemma S4_uniq : ∀ lp x, lp < S4.lane_occupancy.length → x + 1 < (rosterOf S4 lp).length →
    pairDist S4 lp x ≤ 0 → lp = 1 ∧ x = 0 := by
  intro lp x h1 h2 h3
  rw [show S4.lane_occupancy.length = 4 from rfl] at h1
  interval_cases lp
  · rw [show (rosterOf S4 0).length = 0 from rfl] at h2
    omega
  · rw [show (rosterOf S4 1).length = 2 from rfl] at h2
    omega
  · rw [show (rosterOf S4 2).length = 0 from rfl] at h2
    omega
  · rw [show (rosterOf S4 3).length = 0 from rfl] at h2
    omega

lemma safe_S6 : S6._safe (carTpl 100 100 35) o6 1 = (false, S6, 2) := by
  unfold StatefulEnv._safe
  rw [show S6.lanes = build_lanes 30 4 from rfl, laneset_35 _ rfl rfl]
  rw [if_neg (by norm_num [carTpl, Car.back, int_, Car.safe_distance, o6])]
  dsimp only []
  rw [if_pos (show setPop [0] = 0 from rfl)]

lemma pairDist_S6 : pairDist S6 0 0 = 1 := by
  norm_num [pairDist, rosterOf, S6, envTpl, carAt, carTpl, Car.sub, Car.back, Car.front, int_]

lemma C6_speed_eval : (carAt (evalPair S6 o6 0 0 0).1 0).speed =
    100 + (-(1.5 : ℝ) * 9.81 * 0.9 * SCALE) * (1 / 30) := by
  unfold evalPair
  dsimp only []
  rw [pairDist_S6]
  rw [show (rosterOf S6 0).getD 0 0 = 0 from rfl]
  rw [show carAt S6 0 = carTpl 100 100 35 from rfl]
  rw [show o6.real 0 = 3 from rfl]
  rw [if_pos (show ((1 : ℤ) : ℝ) < (carTpl 100 100 35).safe_distance 3 ∧ (0 : ℤ) < 1 from
    by norm_num [Car.safe_distance, carTpl])]
  rw [Nat.zero_add, safe_S6]
  dsimp only []
  rw [if_neg (show ¬ (false = true) from by simp)]
  rw [if_neg (show ¬ (1 : ℤ) ≤ 0 from by norm_num)]
  dsimp only []
  rw [carAt_updateCar]
  rw [if_pos ⟨rfl, show (0 : ℕ) < S6.cars.length from by norm_num [S6, envTpl]⟩]
  rw [show carAt S6 0 = carTpl 100 100 35 from rfl]
  rw [brake_of_not_passing _ _ rfl]
  dsimp only [carTpl]
  norm_num [Car.safe_distance, carTpl]

/-! ## Claim theorems -/

/-- C1 (counterexample): the claim that after the reconciliation phase of a
tick every lane roster is sorted ascending by rear position is false.  In S1
lane 1 holds two overlapping cars (such states are reachable because a pair
with gap <= 0 only sets the collision flag, never brakes, so an overlapping
faster rear car keeps gaining on the car ahead); the roster is sorted before
the tick, the per-vehicle loop changes no lane membership, yet after it the
rear car's rear position (105) exceeds the front car's (104). -/
theorem C1_counterexample :
    rosterSorted S1 1 ∧
    ¬ rosterSorted (phase1Loop oZero 2 S1 [1, 2, 3] 0 0).1 1 := by
  constructor
  · simp only [rosterSorted, rosterOf, S1, envTpl, List.getD_cons_succ, List.getD_cons_zero]
    norm_num [List.pairwise_cons, carAt, carTpl, Car.back, int_]
  · rw [phase1_S1]
    simp only [rosterSorted, rosterOf, S1, envTpl, List.getD_cons_succ, List.getD_cons_zero]
    norm_num [List.pairwise_cons, carAt, carTpl, Car.back, int_]

/-- C1 (amended): the reconciliation operations themselves do preserve a
sorted roster: removal always, and bisect-insort whenever the entering
vehicle is longitudinally disjoint from every roster member (each car's rear
not beyond its front).  The claimed per-tick invariant fails only because the
kinematic update can reorder rear positions with no membership change (see
the counterexample). -/
theorem C1_amended (s : StatefulEnv) (vid : ℕ) (l : List ℕ)
    (hsorted : List.Pairwise (fun a b => (carAt s a).back ≤ (carAt s b).back) l)
    (hdisj : ∀ w ∈ l, carLt (carAt s vid) (carAt s w) ∨ carLt (carAt s w) (carAt s vid))
    (hwf : ∀ w ∈ l, (carAt s w).back ≤ (carAt s w).front)
    (hv : (carAt s vid).back ≤ (carAt s vid).front) :
    List.Pairwise (fun a b => (carAt s a).back ≤ (carAt s b).back)
      (insortRoster s vid l) ∧
    List.Pairwise (fun a b => (carAt s a).back ≤ (carAt s b).back) (l.erase vid) :=
  ⟨insortRoster_sorted s vid l hsorted hdisj hwf hv,
    List.Pairwise.sublist (List.erase_sublist vid l) hsorted⟩

/-- C1 (witness): inserting the far car (id 0, rear 1596) of S2 into the
roster [1] (rear 100) satisfies the disjointness hypotheses and yields sorted
rosters. -/
theorem C1_witness :
    List.Pairwise (fun a b => (carAt S2 a).back ≤ (carAt S2 b).back)
      (insortRoster S2 0 [1]) ∧
    List.Pairwise (fun a b => (carAt S2 a).back ≤ (carAt S2 b).back)
      (([1] : List ℕ).erase 0) :=
  C1_amended S2 0 [1]
    (by simp)
    (by
      intro w hw
      rw [List.mem_singleton.mp hw]
      right
      norm_num [carAt, S2, envTpl, carTpl, carLt, Car.front, Car.back, int_])
    (by
      intro w hw
      rw [List.mem_singleton.mp hw]
      norm_num [carAt, S2, envTpl, carTpl, Car.front, Car.back, int_])
    (by norm_num [carAt, S2, envTpl, carTpl, Car.front, Car.back, int_])

/-- C2 (code bug evaluation): in S2 vehicle 0 crosses the far boundary during
the tick (1596 + 5 > 1600) and is removed from self.vehicles while the loop
iterates over that list, so the iterator skips vehicle 1 entirely: vehicle 1
stays live but its Car object is bit-for-bit unchanged (in particular not
advanced, though a processed car would move by speed * dt = 5) and no
reconciliation ran for it. -/
theorem C2_skipped_follower :
    (phase1Loop oZero 2 S2 [1, 2, 3] 0 0).1.vehicles = [1] ∧
    carAt (phase1Loop oZero 2 S2 [1, 2, 3] 0 0).1 1 = carTpl 100 150 55 ∧
    (phase1Loop oZero 2 S2 [1, 2, 3] 0 0).1.lane_occupancy = [[], [1], [], []] ∧
    (carTpl 100 150 55).speed * (carTpl 100 150 55).dt = 5 := by
  rw [phase1_S2]
  exact ⟨rfl, rfl, rfl, by norm_num [carTpl]⟩

/-- C3 (counterexample): with two colliding consecutive pairs in lane 1 of
S3, the pair at index 0 (rear vehicle id 0) is found first in lane-then-index
order, yet the tick ends with the collision flag naming vehicle 1 — the flag
holds the last colliding vehicle found, not the first. -/
theorem C3_counterexample :
    pairDist S3 1 0 ≤ 0 ∧ pairDist S3 1 1 ≤ 0 ∧
    (rosterOf S3 1).getD 0 0 = 0 ∧
    (gapLoopLanes oZero (List.range S3.lane_occupancy.length) S3 0).1.collision = some 1 ∧
    (gapLoopLanes oZero (List.range S3.lane_occupancy.length) S3 0).1.collision ≠
      some ((rosterOf S3 1).getD 0 0) := by
  have hc := (phase3_spec S3 oZero 0).2.2.2.2
  rw [hc, scanCollision_S3]
  refine ⟨by rw [pairDist_S3_0]; norm_num, by rw [pairDist_S3_1]; norm_num, rfl, rfl, ?_⟩
  rw [show (rosterOf S3 1).getD 0 0 = 0 from rfl]
  simp

/-- C3 (amended): the pending-collision flag identifies at most one vehicle
(it is a single optional reference), and at the end of the gap-evaluation
phase it equals the scan that lets every pair with gap <= 0, in
lane-then-index order, overwrite it with the pair's rear vehicle — i.e. the
LAST colliding vehicle found in that order, for every state and random
stream. -/
theorem C3_amended (s : StatefulEnv) (o : Oracle) (k : ℕ) :
    (gapLoopLanes o (List.range s.lane_occupancy.length) s k).1.collision =
      scanCollision s :=
  (phase3_spec s o k).2.2.2.2

/-- C4: when a tick's gap evaluation meets exactly one pair with gap <= 0 and
that gap is exactly 0, the collision flag is set to the trailing (rear)
vehicle of the pair, the vehicle list and the lane registry are untouched by
the gap phase (the vehicle is not removed), and the step's done flag is
decided by the frame counter alone (frame >= 10000), so the collision does
not halt the loop. -/
theorem C4_zero_gap (s : StatefulEnv) (o : Oracle) (k l i : ℕ)
    (hl : l < s.lane_occupancy.length)
    (hi : i + 1 < (rosterOf s l).length)
    (hzero : pairDist s l i = 0)
    (huniq : ∀ lp x, lp < s.lane_occupancy.length → x + 1 < (rosterOf s lp).length →
      pairDist s lp x ≤ 0 → lp = l ∧ x = i) :
    (gapLoopLanes o (List.range s.lane_occupancy.length) s k).1.collision =
      some ((rosterOf s l).getD i 0) ∧
    (gapLoopLanes o (List.range s.lane_occupancy.length) s k).1.vehicles = s.vehicles ∧
    (gapLoopLanes o (List.range s.lane_occupancy.length) s k).1.lane_occupancy =
      s.lane_occupancy ∧
    (∀ o2, (StatefulEnv.step s o2).2.2 = decide (10000 ≤ s.frame)) := by
  obtain ⟨hv, ho, hf, ha, hc⟩ := phase3_spec s o k
  refine ⟨?_, hv, ho, fun o2 => step_done s o2⟩
  rw [hc]
  exact scanCollision_unique s l i hl hi (le_of_eq hzero) huniq

/-- C4 (witness): in S4 the single lane-1 pair has gap exactly 0
(back 126 = front 126); the tick flags the trailing vehicle id 0, removes
nothing, and done is still decided by the frame counter. -/
theorem C4_witness :
    pairDist S4 1 0 = 0 ∧
    (gapLoopLanes oZero (List.range S4.lane_occupancy.length) S4 0).1.collision =
      some ((rosterOf S4 1).getD 0 0) ∧
    (gapLoopLanes oZero (List.range S4.lane_occupancy.length) S4 0).1.vehicles =
      S4.vehicles ∧
    (∀ o2, (StatefulEnv.step S4 o2).2.2 = decide (10000 ≤ S4.frame)) := by
  obtain ⟨h1, h2, h3, h4⟩ := C4_zero_gap S4 oZero 0 1 0
    (by rw [show S4.lane_occupancy.length = 4 from rfl]; norm_num)
    (by rw [show (rosterOf S4 1).length = 2 from rfl]; norm_num)
    pairDist_S4 S4_uniq
  exact ⟨pairDist_S4, h1, h2, h4⟩

/-- C5 (counterexample): brake is guarded by the passing flag, not by the
braked flag.  After one brake call the braked flag is set, yet a second brake
call in the same tick reduces the speed again — repeated brake calls
compound, so the claimed idempotence fails. -/
theorem C5_counterexample :
    ((carTpl 0 100 55).brake 1).braked = true ∧
    (((carTpl 0 100 55).brake 1).brake 1).speed ≠ ((carTpl 0 100 55).brake 1).speed := by
  rw [brake_of_not_passing _ _ rfl]
  refine ⟨rfl, ?_⟩
  rw [brake_of_not_passing _ _ rfl]
  norm_num [carTpl, SCALE, LANE_W]

/-- C5 (amended): pass_ is idempotent, and brake is a no-op exactly while the
passing flag is set; but while passing is clear every brake call, braked flag
set or not, subtracts another fraction * g * mu * SCALE * dt from the speed,
so repeated brake calls in one tick do compound. -/
theorem C5_amended (c : Car) (f : ℝ) :
    ((c.pass_).pass_) = c.pass_ ∧
    ({ c with passing := true } : Car).brake f = { c with passing := true } ∧
    (({ c with passing := false } : Car).brake f).speed =
      c.speed + (-f * 9.81 * 0.9 * SCALE) * c.dt ∧
    ((({ c with passing := false } : Car).brake f).brake f).speed =
      c.speed + (-f * 9.81 * 0.9 * SCALE) * c.dt + (-f * 9.81 * 0.9 * SCALE) * c.dt := by
  refine ⟨?_, brake_of_passing _ f rfl, ?_, ?_⟩
  · by_cases hp : c.passing = true
    · rw [pass_of_passing c hp]
      rw [pass_of_passing c hp]
    · rw [pass_of_not_passing c (by simpa using hp)]
      rw [pass_of_passing _ rfl]
  · rw [brake_of_not_passing _ _ rfl]
  · rw [brake_of_not_passing _ _ rfl]
    rw [brake_of_not_passing _ _ rfl]

/-- C6 (counterexample): the braking fraction the stepper passes is
max(0.005 * safe_distance / distance, 1), a floor at 1, not a cap.  In S6 the
branch condition 0 < gap < safe_distance holds with gap 1 and safe distance
300, the fraction is 1.5, and the one-tick speed reduction exceeds
g * mu * SCALE * dt — the claimed upper bound is violated. -/
theorem C6_counterexample :
    ((0 : ℤ) < pairDist S6 0 0) ∧
    ((pairDist S6 0 0 : ℤ) : ℝ) < (carAt S6 0).safe_distance (o6.real 0) ∧
    (carAt S6 0).speed - (carAt (evalPair S6 o6 0 0 0).1 0).speed >
      9.81 * 0.9 * SCALE * (carAt S6 0).dt := by
  refine ⟨by rw [pairDist_S6]; norm_num, ?_, ?_⟩
  · rw [pairDist_S6, show carAt S6 0 = carTpl 100 100 35 from rfl,
      show o6.real 0 = 3 from rfl]
    norm_num [Car.safe_distance, carTpl]
  · rw [C6_speed_eval, show carAt S6 0 = carTpl 100 100 35 from rfl]
    norm_num [carTpl, SCALE, LANE_W]

/-- C6 (amended): the fraction max(0.005 * sd / d, 1) is at least 1 on the
branch 0 < d < sd, so one tick of stepper-issued braking reduces the speed of
a non-passing car by AT LEAST g * mu * SCALE * dt (the physically-motivated
maximum deceleration times the tick delta) — the bound is a floor, not the
claimed cap. -/
theorem C6_amended (c : Car) (sd : ℝ) (d : ℤ) (hp : c.passing = false)
    (hdt : 0 ≤ c.dt) (h1 : 0 < d) (h2 : (d : ℝ) < sd) :
    c.speed - (c.brake (max ((0.005 : ℝ) * sd / (d : ℝ)) 1)).speed ≥
      9.81 * 0.9 * SCALE * c.dt := by
  rw [brake_of_not_passing c _ hp]
  dsimp only []
  have hm : (1 : ℝ) ≤ max ((0.005 : ℝ) * sd / (d : ℝ)) 1 := le_max_right _ _
  have hS : (0 : ℝ) ≤ 9.81 * 0.9 * SCALE := by norm_num [SCALE, LANE_W]
  have key : 9.81 * 0.9 * SCALE * c.dt ≤
      (max ((0.005 : ℝ) * sd / (d : ℝ)) 1) * (9.81 * 0.9 * SCALE * c.dt) := by
    nlinarith [mul_nonneg hS hdt]
  nlinarith [key]

/-- C6 (witness): the amended bound instantiated at a concrete non-passing
car with gap 1 and safe distance 300. -/
theorem C6_witness :
    (0 : ℤ) < 1 ∧ ((1 : ℤ) : ℝ) < 300 ∧ (carTpl 0 100 55).passing = false ∧
    (carTpl 0 100 55).speed -
      ((carTpl 0 100 55).brake (max ((0.005 : ℝ) * 300 / ((1 : ℤ) : ℝ)) 1)).speed ≥
      9.81 * 0.9 * SCALE * (carTpl 0 100 55).dt :=
  ⟨by norm_num, by norm_num, rfl,
    C6_amended (carTpl 0 100 55) 300 1 rfl (by norm_num [carTpl]) (by norm_num)
      (by norm_num)⟩

/-- C7: a vehicle whose lane set contains lane 0 always fails the safety
evaluator (CPython set.pop returns the least small int, here 0, and lane 0 is
barred), and therefore the gap-evaluation of a pair whose rear vehicle
occupies lane 0 never starts a passing maneuver: the rear vehicle's passing
flag and target lane are unchanged (the branch can only brake or flag a
collision). -/
theorem C7_lane0_no_pass (s : StatefulEnv) (v : Car) (o : Oracle) (k lidx i : ℕ)
    (hv : 0 ∈ v.get_lane_set s.lanes)
    (hc : 0 ∈ (carAt s ((rosterOf s lidx).getD i 0)).get_lane_set s.lanes) :
    (s._safe v o k).1 = false ∧
    (carAt (evalPair s o lidx i k).1 ((rosterOf s lidx).getD i 0)).passing =
      (carAt s ((rosterOf s lidx).getD i 0)).passing ∧
    (carAt (evalPair s o lidx i k).1 ((rosterOf s lidx).getD i 0)).target_lane =
      (carAt s ((rosterOf s lidx).getD i 0)).target_lane := by
  refine ⟨safe_lane0 s v o k hv, ?_⟩
  unfold evalPair
  dsimp only []
  rcases hsafe : s._safe (carAt s ((rosterOf s lidx).getD i 0)) o (k + 1) with ⟨res, s2, k2⟩
  have hs2 : s2 = s := by
    have h0 := safe_stateEq s (carAt s ((rosterOf s lidx).getD i 0)) o (k + 1)
    rw [hsafe] at h0
    exact h0
  rw [hs2] at hsafe
  have hres : res = false := by
    have h0 := safe_lane0 s (carAt s ((rosterOf s lidx).getD i 0)) o (k + 1) hc
    rw [hsafe] at h0
    exact h0
  rw [hs2, hres]
  dsimp only []
  split_ifs with h1 h2 h3
  all_goals try contradiction
  all_goals try (exact absurd h1 (not_le.mpr h2.2))
  all_goals refine ⟨?_, ?_⟩
  all_goals simp only [carAt, updateCar]
  all_goals
    (rw [getD_set]; split_ifs <;>
      first | rfl | exact brake_passing _ _ | exact brake_target_lane _ _)

/-- C7 (witness): in S6 the rear vehicle of the lane-0 pair occupies lane 0:
the safety evaluator rejects it and the gap evaluation leaves its passing
flag and target lane unchanged. -/
theorem C7_witness :
    (S6._safe (carTpl 100 100 35) o6 0).1 = false ∧
    (carAt (evalPair S6 o6 0 0 0).1 ((rosterOf S6 0).getD 0 0)).passing =
      (carAt S6 ((rosterOf S6 0).getD 0 0)).passing ∧
    (carAt (evalPair S6 o6 0 0 0).1 ((rosterOf S6 0).getD 0 0)).target_lane =
      (carAt S6 ((rosterOf S6 0).getD 0 0)).target_lane :=
  C7_lane0_no_pass S6 (carTpl 100 100 35) o6 0 0 0
    (by
      rw [show S6.lanes = build_lanes 30 4 from rfl, laneset_35 _ rfl rfl]
      exact List.mem_singleton.mpr rfl)
    (by
      rw [show carAt S6 ((rosterOf S6 0).getD 0 0) = carTpl 100 100 35 from rfl,
        show S6.lanes = build_lanes 30 4 from rfl, laneset_35 _ rfl rfl]
      exact List.mem_singleton.mpr rfl)

/-- C8: the safety evaluator performs no mutation: for every environment
state, car, random stream and draw counter, the state threaded through _safe
comes back unchanged — every lane roster and every vehicle in the car store
is exactly as before the call. -/
theorem C8_safe_pure (s : StatefulEnv) (v : Car) (o : Oracle) (k : ℕ) :
    (s._safe v o k).2.1 = s :=
  safe_stateEq s v o k

/-- C9: target_lane is never changed by the kinematic step or by brake; while
the passing flag is clear a pass_ call sets it exactly to one lane width
toward the lower lateral side of the current position and raises the flag;
and while the flag is set pass_ changes nothing at all. -/
theorem C9_target_lane (c : Car) (f : ℝ) :
    (c.step).target_lane = c.target_lane ∧
    (c.brake f).target_lane = c.target_lane ∧
    (({ c with passing := false } : Car).pass_).target_lane = c.y - LANE_W ∧
    (({ c with passing := false } : Car).pass_).passing = true ∧
    ({ c with passing := true } : Car).pass_ = { c with passing := true } := by
  refine ⟨step_target_lane c, brake_target_lane c f, ?_, ?_, pass_of_passing _ rfl⟩
  · rw [pass_of_not_passing _ rfl]
  · rw [pass_of_not_passing _ rfl]

/-- C10: whenever the sinusoidal modulation sin(2 pi frame dt) is not
positive, the spawn threshold traffic_rate * sin * dt is not positive either,
so no value of the uniform draw in [0, 1) can satisfy the spawn condition:
the spawn step returns the state unchanged for every free-lane set. -/
theorem C10_no_spawn (s : StatefulEnv) (free : List ℕ) (o : Oracle) (k : ℕ)
    (hsin : Real.sin (2 * Real.pi * (s.frame : ℝ) * s.delta_t) ≤ 0)
    (hr : 0 ≤ o.real k) (hrate : 0 ≤ s.traffic_rate) (hdt : 0 ≤ s.delta_t) :
    phase2 s free o k = (s, k + 1) := by
  unfold phase2
  rw [if_neg]
  push_neg
  calc s.traffic_rate * Real.sin (2 * Real.pi * (s.frame : ℝ) * s.delta_t) * s.delta_t
      ≤ 0 := mul_nonpos_of_nonpos_of_nonneg
        (mul_nonpos_of_nonneg_of_nonpos hrate hsin) hdt
    _ ≤ o.real k := hr

/-- C10 (witness): at frame 0 the modulation is sin 0 = 0, so with the
uniform draw 1/2 the spawn step of S4 leaves the state unchanged even though
free lanes [1, 2, 3] are available. -/
theorem C10_witness :
    Real.sin (2 * Real.pi * ((S4.frame : ℕ) : ℝ) * S4.delta_t) ≤ 0 ∧
    (0 : ℝ) ≤ oHalf.real 0 ∧
    phase2 S4 [1, 2, 3] oHalf 0 = (S4, 1) :=
  ⟨by rw [show S4.frame = 0 from rfl]; norm_num,
    by norm_num [oHalf],
    C10_no_spawn S4 [1, 2, 3] oHalf 0
      (by rw [show S4.frame = 0 from rfl]; norm_num)
      (by norm_num [oHalf])
      (by norm_num [S4, envTpl])
      (by norm_num [S4, envTpl])⟩
